import Mathlib

/-!
Verification of the green zmq adapter (`eventlet/green/zmq.py`): a shallow
embedding of the cooperative-concurrency primitives `_QueueLock` (the fair
reentrant lock), `_SimpleEvent` (the single-waiter wake gate), the
`Socket._trampoline` readiness deduplication, the `getsockopt(EVENTS)` wakeup
query, the per-socket-kind dispatch of send/recv, and the EAGAIN retry loop
shared by all blocking send/recv paths.

Greenlets (cooperative tasks) are identified by natural numbers.  The hub's
timer facility (`schedule_call_global` / `Timer.cancel`), which lives outside
the embedded file, is modelled from the spec where noted.
-/

namespace GreenZmq

/-- Identity of a greenlet (cooperative task), as returned by
`greenlet.getcurrent()`. -/
abbrev TaskId := Nat

/-- The errors the embedded code can raise.  `zmqError` carries an errno
(`ZMQError(e)`); `typeError` is Python's wrong-number-of-arguments error;
`attributeError` is a failed instance-attribute lookup; `lockMisuse` is the
exception raised at line 51 ("Cannot release unacquired lock"); `doubleBlock`
is the exception raised at line 80 ("Cannot block more than one thread on one
SimpleEvent"); `assertionError` models a failed `assert`. -/
inductive PyErr where
  | zmqError (errno : Nat)
  | typeError
  | attributeError (missing : String)
  | lockMisuse
  | doubleBlock
  | assertionError (msg : String)
  deriving Repr, DecidableEq

/-- errno for would-block (`zmq.EAGAIN`). -/
def EAGAIN : Nat := 11

/-- errno for unsupported operation (`zmq.ENOTSUP`). -/
def ENOTSUP : Nat := 95

/-- Bit for send readiness (`zmq.POLLOUT`). -/
def POLLOUT : Nat := 2

/-- Bit for receive readiness (`zmq.POLLIN`). -/
def POLLIN : Nat := 1

/-! ## Hub timers

Modelled from the spec: the scheduler exposes `schedule-resume(task, delay)`
returning a cancelable handle, and a cancelled handle never delivers its
resumption ("a pending wake is cancelled whenever the blocked state is
cleared, so stale wakes never double-resume a later, unrelated block").  The
hub implementation itself (`eventlet.hubs`) is not among the embedded
sources. -/

/-- A scheduled resumption: `hub.schedule_call_global(0, g.switch)` returns a
timer that, unless cancelled, will switch to `target`. -/
structure Timer where
  id : Nat
  target : TaskId
  cancelled : Bool
  deriving Repr, DecidableEq

/-- The hub's timer table: scheduled resumptions plus a fresh-id counter. -/
structure Hub where
  timers : List Timer
  nextId : Nat
  deriving Repr, DecidableEq

/-- A hub with no scheduled timers. -/
def Hub.init : Hub := ⟨[], 0⟩

/-- Modelled from the spec: `schedule_call_global(0, target.switch)` registers
a fresh, uncancelled timer and returns its handle (here: its id). -/
def scheduleCallGlobal (h : Hub) (t : TaskId) : Nat × Hub :=
  (h.nextId, ⟨h.timers ++ [⟨h.nextId, t, false⟩], h.nextId + 1⟩)

/-- Modelled from the spec: `timer.cancel()` marks the timer cancelled. -/
def cancelTimer (h : Hub) (i : Nat) : Hub :=
  ⟨h.timers.map (fun tm => if tm.id = i then { tm with cancelled := true } else tm),
   h.nextId⟩

/-- Look a timer up by id in the hub's table. -/
def lookupTimer (h : Hub) (i : Nat) : Option Timer :=
  h.timers.find? (fun tm => tm.id == i)

/-- Modelled from the spec: when the hub runs timer `i`, the resumption is
delivered (the target task is switched to) only if the timer was not
cancelled; a cancelled timer is a no-op.  Returns the task resumed, if any. -/
def fireTimer (h : Hub) (i : Nat) : Option TaskId :=
  match lookupTimer h i with
  | some tm => if tm.cancelled then none else some tm.target
  | none => none

/-! ## The fair reentrant lock `_QueueLock` (lines 15-58) -/

/-- State of a `_QueueLock`: the deque of waiting tasks (append at the back,
popleft at the front), the reentrant hold count, and the current holder.
`_count` only ever moves by plus-or-minus one and `release` refuses to go
below zero, so a natural number is faithful. -/
structure QueueLock where
  waiters : List TaskId
  count : Nat
  holder : Option TaskId
  deriving Repr, DecidableEq

/-- A freshly constructed `_QueueLock` (lines 21-24). -/
def QueueLock.init : QueueLock := ⟨[], 0, none⟩

/-- Outcome of the first phase of `acquire`: either the caller took the lock
immediately (no suspension), or it appended itself to the wait deque and
suspended in `hubs.get_hub().switch()`. -/
inductive AcquireStep where
  | acquired (st : QueueLock)
  | enqueued (st : QueueLock)
  deriving Repr, DecidableEq

/-- The lock state an `AcquireStep` leaves behind. -/
def stateOf : AcquireStep → QueueLock
  | .acquired st => st
  | .enqueued st => st

/-- First phase of `acquire` (lines 35-40, 46-47): if the deque is non-empty
or the count is positive, and the holder is not the calling task, append the
caller to the deque and suspend; otherwise take or re-take the lock
immediately. -/
def acquire (current : TaskId) (st : QueueLock) : AcquireStep :=
  if (st.waiters ≠ [] ∨ 0 < st.count) ∧ st.holder ≠ some current then
    .enqueued { st with waiters := st.waiters ++ [current] }
  else
    .acquired { st with holder := some current, count := st.count + 1 }

/-- Second phase of `acquire` (lines 41-47), run when the suspended task is
switched back in: popleft, assert the popped entry is the resumed task and
that the count is zero, then become holder with count one. -/
def acquireResume (current : TaskId) (st : QueueLock) : Except PyErr QueueLock :=
  match st.waiters with
  | [] => .error (.assertionError "popleft from an empty deque")
  | w :: rest =>
    if w = current then
      if st.count = 0 then
        .ok { waiters := rest, count := 1, holder := some current }
      else
        .error (.assertionError "After waking a thread, the lock must be unacquired")
    else
      .error (.assertionError "Waiting threads woken out of order")

/-- `release` (lines 49-58): raise lock-misuse when the count is not positive
(the raise happens before any mutation, so the state comes back unchanged);
otherwise decrement, and when the count reaches zero clear the holder and
schedule the switch of the task at the front of the deque (if any), which is
returned as the third component. -/
def release (st : QueueLock) : Option PyErr × QueueLock × Option TaskId :=
  if st.count = 0 then
    (some .lockMisuse, st, none)
  else
    let c := st.count - 1
    if c = 0 then
      (none, { st with count := 0, holder := none }, st.waiters.head?)
    else
      (none, { st with count := c }, none)

/-- `release` as invoked by task `caller`.  The body of `release` never reads
the calling task's identity (it never calls `greenlet.getcurrent()`), so the
caller argument is ignored. -/
def releaseBy (_caller : TaskId) (st : QueueLock) : Option PyErr × QueueLock × Option TaskId :=
  release st

/-- `n` successive `acquire` calls by the same task. -/
def acquireN : Nat → TaskId → QueueLock → QueueLock
  | 0, _, st => st
  | n + 1, t, st => acquireN n t (stateOf (acquire t st))

/-- `n` successive `release` calls, stopping at the first error. -/
def releaseN : Nat → QueueLock → Option PyErr × QueueLock
  | 0, st => (none, st)
  | n + 1, st =>
    match release st with
    | (some e, st1, _) => (some e, st1)
    | (none, st1, _) => releaseN n st1

/-- Each task of `ts`, in order, runs the first phase of `acquire` on the
lock. -/
def enqueueAll (ts : List TaskId) (st : QueueLock) : QueueLock :=
  ts.foldl (fun s t => stateOf (acquire t s)) st

/-- Drain of a contended lock, following the code's handoff protocol: the
current holder calls `release` (which at count zero schedules the switch of
the task at the front of the deque), the hub delivers that switch, the woken
task finishes `acquire` via `acquireResume` (pops itself, checks the asserts,
becomes sole holder with count one), runs its critical section, and releases
in turn.  Returns the order in which the queued tasks became sole holder.
`fuel` bounds the recursion (the source loop runs once per waiter). -/
def runHandoffs (fuel : Nat) (st : QueueLock) : Except PyErr (List TaskId) :=
  match release st with
  | (some e, _, _) => .error e
  | (none, _, none) => .ok []
  | (none, st1, some w) =>
    match fuel with
    | 0 => .error (.assertionError "out of fuel")
    | fuel' + 1 =>
      match acquireResume w st1 with
      | .error e => .error e
      | .ok st2 => (runHandoffs fuel' st2).map (fun rest => w :: rest)

/-! ## The wake gate `_SimpleEvent` (lines 60-100) -/

/-- State of a `_SimpleEvent`: the at-most-one recorded blocked greenlet, and
the id of the pending wakeup timer, if a wake has been scheduled and not yet
cancelled. -/
structure SimpleEvent where
  blockedThread : Option TaskId
  wakeupper : Option Nat
  deriving Repr, DecidableEq

/-- A freshly constructed `_SimpleEvent` (lines 67-69). -/
def SimpleEvent.init : SimpleEvent := ⟨none, none⟩

/-- The scope entry `__enter__` (lines 78-81): raise double-block if a task
is already recorded (before any mutation), else record the caller as the sole
waiter. -/
def evtEnter (current : TaskId) (e : SimpleEvent) : Option PyErr × SimpleEvent :=
  if e.blockedThread.isSome then
    (some .doubleBlock, e)
  else
    (none, { e with blockedThread := some current })

/-- The scope exit `__exit__` (lines 83-90): clear the waiter record and, if a
wakeup timer is pending, cancel it and clear it. -/
def evtExit (e : SimpleEvent) (h : Hub) : SimpleEvent × Hub :=
  let h' := match e.wakeupper with
            | some i => cancelTimer h i
            | none => h
  (⟨none, none⟩, h')

/-- The tail of `block` (lines 74-76): the suspension inside the `with self`
scope has ended -- `outcome` is `none` for a normal resumption and `some e`
when an exception (cancellation, error) was delivered into the suspended
task -- and Python's scope protocol runs `__exit__` on every one of these
exit paths before `block` is left. -/
def blockFinish (outcome : Option PyErr) (e : SimpleEvent) (h : Hub) :
    Option PyErr × SimpleEvent × Hub :=
  let p := evtExit e h
  (outcome, p.1, p.2)

/-- `wake` (lines 92-100): if a task is recorded and no wakeup is pending,
schedule the recorded task's switch on the hub, remember the timer and return
true; otherwise change nothing and return false. -/
def wake (e : SimpleEvent) (h : Hub) : Bool × SimpleEvent × Hub :=
  match e.blockedThread, e.wakeupper with
  | some t, none =>
    let p := scheduleCallGlobal h t
    (true, { e with wakeupper := some p.1 }, p.2)
  | _, _ => (false, e, h)

/-! ## The readiness trampoline `Socket._trampoline` (lines 228-250) -/

/-- A transfer direction. -/
inductive Direction where
  | send
  | recv
  deriving Repr, DecidableEq

/-- The per-socket state set up by `__init__` (lines 204-206): note the
single `_in_trampoline` flag, shared by both directions, and one
`_SimpleEvent` gate per direction. -/
structure SocketState where
  inTrampoline : Bool
  sendEvent : SimpleEvent
  recvEvent : SimpleEvent
  deriving Repr, DecidableEq

/-- The gate `_trampoline` selects for the given call (line 239). -/
def gateOf (st : SocketState) (isSend : Bool) : SimpleEvent :=
  if isSend then st.sendEvent else st.recvEvent

/-- Store back the selected gate. -/
def setGate (st : SocketState) (isSend : Bool) (e : SimpleEvent) : SocketState :=
  if isSend then { st with sendEvent := e } else { st with recvEvent := e }

/-- The direction a boolean `is_send` argument denotes. -/
def dirOf (isSend : Bool) : Direction := if isSend then .send else .recv

/-- What a `_trampoline` call did: parked on the direction's wake gate
(`evt.block()`), performed the external readiness wait (eventlet's
`trampoline` on the zmq FD), or raised inside the scope entry before any
wait. -/
inductive TrampAction where
  | blockedOnGate (d : Direction)
  | externalWait
  | raisedOnEnter
  deriving Repr, DecidableEq

/-- `_trampoline` (lines 228-250).  If `_in_trampoline` is set, park on the
direction's gate via `evt.block()`.  Otherwise set the flag, enter the gate's
scope, perform the external readiness wait, and clear the flag in a
`finally`, so the flag is cleared on every exit path.  `waitErr` is how the
suspension ended (`none` = normal resumption, `some e` = an exception was
delivered into the waiting task).  Returns the raised error (if any), the
action taken, the socket state after the call finishes, and the hub. -/
def trampolineStep (isSend : Bool) (current : TaskId) (waitErr : Option PyErr)
    (st : SocketState) (h : Hub) : Option PyErr × TrampAction × SocketState × Hub :=
  let evt := gateOf st isSend
  if st.inTrampoline then
    match evtEnter current evt with
    | (some e, _) => (some e, .raisedOnEnter, st, h)
    | (none, evt1) =>
      let fin := blockFinish waitErr evt1 h
      (fin.1, .blockedOnGate (dirOf isSend), setGate st isSend fin.2.1, fin.2.2)
  else
    match evtEnter current evt with
    | (some e, _) => (some e, .raisedOnEnter, { st with inTrampoline := false }, h)
    | (none, evt1) =>
      let fin := blockFinish waitErr evt1 h
      (fin.1, .externalWait,
        { setGate st isSend fin.2.1 with inTrampoline := false }, fin.2.2)

/-! ## The readiness query `Socket.getsockopt(EVENTS)` (lines 292-306) -/

/-- The instance attributes under which `__init__` (lines 205-206) binds the
two wake gates: `self._send_event` and `self._recv_event`.  Any other name is
unbound and looking it up raises `AttributeError`. -/
def gateAttr : String → Option Direction
  | "_send_event" => some .send
  | "_recv_event" => some .recv
  | _ => none

/-- The EVENTS branch of the overridden `getsockopt` (lines 294-306), after
the underlying query returned the readiness bits: read `self._send_evt`,
test its truthiness and the POLLOUT bit and wake it, then the same for
`self._recv_evt` and POLLIN.  Python evaluates the attribute lookup first,
and an unbound name raises `AttributeError`.  Returns the state, the hub and
the list of directions woken. -/
def getsockoptEvents (st : SocketState) (h : Hub) (bits : Nat) :
    Except PyErr (SocketState × Hub × List Direction) :=
  match gateAttr "_send_evt" with
  | none => .error (.attributeError "_send_evt")
  | some _ =>
    let a :=
      if st.sendEvent.blockedThread.isSome && bits.land POLLOUT != 0 then
        let w := wake st.sendEvent h
        ({ st with sendEvent := w.2.1 }, w.2.2, w.1)
      else (st, h, false)
    match gateAttr "_recv_evt" with
    | none => .error (.attributeError "_recv_evt")
    | some _ =>
      let b :=
        if a.1.recvEvent.blockedThread.isSome && bits.land POLLIN != 0 then
          let w := wake a.1.recvEvent a.2.1
          ({ a.1 with recvEvent := w.2.1 }, w.2.2, w.1)
        else (a.1, a.2.1, false)
      .ok (b.1, b.2.1,
        (if a.2.2 then [Direction.send] else []) ++
        (if b.2.2 then [Direction.recv] else []))

/-! ## Per-kind dispatch (lines 208-226, 405-430) -/

/-- The socket kinds appearing in `_eventlet_ops` (lines 414-430).  ROUTER
and DEALER stand for XREP and XREQ under their newer names; REQ and REP are
not in the table and keep the class-level send/recv. -/
inductive SockKind where
  | PUB
  | SUB
  | PUSH
  | PULL
  | PAIR
  | ROUTER
  | DEALER
  deriving Repr, DecidableEq

/-- The bound callable `__init__` installs for a public method. -/
inductive Handler where
  | xsafeSend
  | xsafeSendMultipart
  | xsafeRecv
  | xsafeRecvMultipart
  | sendNotSupported
  deriving Repr, DecidableEq

/-- The send entry installed by `__init__` (lines 213-219) from the ops table
(lines 410-422): receive-only kinds (SUB, PULL) get `_send_not_supported`;
the rest get `_xsafe_send`. -/
def sendHandler : SockKind → Handler
  | .SUB => .sendNotSupported
  | .PULL => .sendNotSupported
  | _ => .xsafeSend

/-- The receive entry installed by `__init__` (lines 221-226): send-only
kinds (PUB, PUSH) get `_send_not_supported` -- line 226 installs the SEND
variant, `_recv_not_supported` (line 311) is never installed -- and the rest
get `_xsafe_recv`. -/
def recvHandler : SockKind → Handler
  | .PUB => .sendNotSupported
  | .PUSH => .sendNotSupported
  | _ => .xsafeRecv

/-- Result of invoking a public send/recv entry: the call either raised
synchronously at dispatch, or proceeds into the named handler's body. -/
inductive CallResult where
  | proceeds (hnd : Handler)
  | raised (e : PyErr)
  deriving Repr, DecidableEq

/-- Calling the bound method `_send_not_supported` (lines 308-309): its
signature is `(self, msg, flags, copy, track)` -- four required positional
parameters, no defaults -- so a call that does not supply exactly four
arguments raises `TypeError` before the body runs; with four arguments the
body raises `ZMQError(ENOTSUP)`. -/
def callSendNotSupported (nargs : Nat) : PyErr :=
  if nargs = 4 then .zmqError ENOTSUP else .typeError

/-- Invoke the socket's receive entry with `nargs` positional arguments.
`recv`'s public signature is `(flags=0, copy=True, track=False)`, so callers
pass at most three. -/
def recvCall (k : SockKind) (nargs : Nat) : CallResult :=
  match recvHandler k with
  | .sendNotSupported => .raised (callSendNotSupported nargs)
  | hnd => .proceeds hnd

/-- Invoke the socket's send entry with `nargs` positional arguments.
`send`'s public signature is `(msg, flags=0, copy=True, track=False)`, so
callers pass between one and four. -/
def sendCall (k : SockKind) (nargs : Nat) : CallResult :=
  match sendHandler k with
  | .sendNotSupported => .raised (callSendNotSupported nargs)
  | hnd => .proceeds hnd

/-! ## The EAGAIN retry loop (lines 263-270, 283-290, 331-344, 375-389) -/

/-- Outcome of one physical non-blocking attempt on the external zmq
socket: a result, or `ZMQError(errno)`. -/
inductive Attempt (α : Type) where
  | ok (v : α)
  | zmqErr (errno : Nat)
  deriving Repr, DecidableEq

/-- The retry loop shared by `send`, `recv`, `_xsafe_send` and `_xsafe_recv`:
attempt the NOBLOCK operation; on success return the result; on
`ZMQError(EAGAIN)` call `_trampoline` (one suspension) and retry; on any
other error re-raise without retrying.  `stub i` is the outcome of physical
attempt `i`; the result pairs the call's outcome with the number of
`_trampoline` suspensions; `none` means the fuel ran out (the source loop is
`while True`). -/
def retryLoop {α : Type} (stub : Nat → Attempt α) : Nat → Nat → Option (Except Nat α × Nat)
  | 0, _ => none
  | fuel + 1, i =>
    match stub i with
    | .ok v => some (.ok v, 0)
    | .zmqErr e =>
      if e = EAGAIN then
        match retryLoop stub fuel (i + 1) with
        | some (r, k) => some (r, k + 1)
        | none => none
      else
        some (.error e, 0)

/-! ## Theorems -/

/-- Cancelling a timer marks exactly that id as cancelled in the table. -/
theorem lookupTimer_cancelTimer (h : Hub) (i : Nat) :
    lookupTimer (cancelTimer h i) i =
      (lookupTimer h i).map (fun tm => { tm with cancelled := true }) := by
  unfold lookupTimer cancelTimer
  induction h.timers with
  | nil => rfl
  | cons tm l ih =>
    by_cases hid : tm.id = i
    · simp [List.find?, hid]
    · have hbeq : (tm.id == i) = false := by simpa using hid
      simp [List.find?, hid, hbeq, ih]

/-- C1 (code_bug evidence): the events query never wakes any gate.  The
constructor binds the gates under `_send_event` and `_recv_event`, but
`getsockopt(EVENTS)` reads `_send_evt`, so on every socket state, every hub
state and every readiness bitmask the query raises
`AttributeError("_send_evt")` before any wake -- instead of waking the gates
whose readiness bit is set, as the claim states. -/
theorem C1_events_query_raises_attribute_error (st : SocketState) (h : Hub) (bits : Nat) :
    getsockoptEvents st h bits = .error (.attributeError "_send_evt") := rfl

/-- C2 (code_bug evidence): on send-only kinds (PUB, PUSH) the receive entry
is wired to `_send_not_supported`, whose four required positional parameters
do not fit `recv`'s call convention of at most three arguments, so every call
made through `recv`'s public signature raises `TypeError`, not
`ZMQError(ENOTSUP)`; the symmetric send entry on receive-only kinds (SUB,
PULL) has the same arity problem for the typical one-argument `send(msg)`.
Only a call supplying exactly four positional arguments reaches the
`ZMQError(ENOTSUP)` raise. -/
theorem C2_unsupported_direction_raises_type_error :
    recvHandler .PUB = .sendNotSupported ∧
    recvHandler .PUSH = .sendNotSupported ∧
    sendHandler .SUB = .sendNotSupported ∧
    sendHandler .PULL = .sendNotSupported ∧
    recvCall .PUB 0 = .raised .typeError ∧
    recvCall .PUB 3 = .raised .typeError ∧
    sendCall .SUB 1 = .raised .typeError ∧
    recvCall .PUB 4 = .raised (.zmqError ENOTSUP) := by decide

/-- C7: misuse is fatal, not silent.  `release` on a lock whose hold count is
not positive raises lock-misuse and leaves the lock state unchanged, and the
scope entry of a gate that already has a recorded waiter raises
double-block and leaves the gate unchanged. -/
theorem C7_misuse_raises (st : QueueLock) (e : SimpleEvent) (t w : TaskId)
    (hc : st.count = 0) (hb : e.blockedThread = some w) :
    release st = (some .lockMisuse, st, none) ∧
    evtEnter t e = (some .doubleBlock, e) := by
  constructor
  · simp [release, hc]
  · simp [evtEnter, hb]

/-- Witness for C7 at a concrete unacquired lock and occupied gate. -/
theorem C7_misuse_raises_witness :
    release ⟨[], 0, none⟩ = (some .lockMisuse, ⟨[], 0, none⟩, none) ∧
    evtEnter 2 ⟨some 1, none⟩ = (some .doubleBlock, ⟨some 1, none⟩) :=
  C7_misuse_raises ⟨[], 0, none⟩ ⟨some 1, none⟩ 2 1 rfl rfl

/-- C8: wake is idempotent per block cycle.  With a task recorded and no wake
pending, the first `wake` returns true and registers exactly one resumption
timer for the recorded task; calling `wake` again on the resulting state
returns false and changes nothing; and `wake` on a gate with no recorded
waiter returns false and changes nothing. -/
theorem C8_wake_idempotent (e : SimpleEvent) (h : Hub) (t : TaskId)
    (e2 : SimpleEvent) (h2 : Hub)
    (hb : e.blockedThread = some t) (hw : e.wakeupper = none)
    (hb2 : e2.blockedThread = none) :
    (wake e h).1 = true ∧
    (wake e h).2.2.timers = h.timers ++ [⟨h.nextId, t, false⟩] ∧
    wake (wake e h).2.1 (wake e h).2.2 = (false, (wake e h).2.1, (wake e h).2.2) ∧
    wake e2 h2 = (false, e2, h2) := by
  refine ⟨?_, ?_, ?_, ?_⟩
  · simp [wake, hb, hw]
  · simp [wake, hb, hw, scheduleCallGlobal]
  · simp [wake, hb, hw, scheduleCallGlobal]
  · simp [wake, hb2]

/-- Witness for C8 at a concrete gate with task 1 recorded. -/
theorem C8_wake_idempotent_witness :
    (wake ⟨some 1, none⟩ Hub.init).1 = true ∧
    (wake ⟨some 1, none⟩ Hub.init).2.2.timers = [⟨0, 1, false⟩] ∧
    wake (wake ⟨some 1, none⟩ Hub.init).2.1 (wake ⟨some 1, none⟩ Hub.init).2.2 =
      (false, (wake ⟨some 1, none⟩ Hub.init).2.1, (wake ⟨some 1, none⟩ Hub.init).2.2) ∧
    wake SimpleEvent.init Hub.init = (false, SimpleEvent.init, Hub.init) :=
  C8_wake_idempotent ⟨some 1, none⟩ Hub.init 1 SimpleEvent.init Hub.init rfl rfl rfl

/-- C9: on every exit path of a block scope (the resumption outcome
`outcome` ranges over normal return, error and cancellation) the waiter
record is cleared, the pending wake is cancelled, and the cancelled timer no
longer resumes anyone -- so it cannot resume a task recorded by a later,
unrelated block on the same gate, whose entry succeeds afresh with no
pending wake. -/
theorem C9_exit_cancels_pending_wake (e : SimpleEvent) (h : Hub) (a b : TaskId)
    (w : Nat) (tm : Timer) (outcome : Option PyErr)
    (_hb : e.blockedThread = some a) (hw : e.wakeupper = some w)
    (ht : lookupTimer h w = some tm) :
    (blockFinish outcome e h).1 = outcome ∧
    (blockFinish outcome e h).2.1 = SimpleEvent.init ∧
    fireTimer (blockFinish outcome e h).2.2 w = none ∧
    evtEnter b (blockFinish outcome e h).2.1 = (none, ⟨some b, none⟩) := by
  have hfin : blockFinish outcome e h = (outcome, SimpleEvent.init, cancelTimer h w) := by
    simp [blockFinish, evtExit, hw, SimpleEvent.init]
  refine ⟨by rw [hfin], by rw [hfin], ?_, by rw [hfin]; rfl⟩
  rw [hfin]
  show fireTimer (cancelTimer h w) w = none
  unfold fireTimer
  rw [lookupTimer_cancelTimer, ht]
  rfl

/-- Witness for C9: task 1 blocked with a pending wake (timer 0); after exit
the gate is clear, timer 0 is cancelled and dead, and task 2 can block
afresh. -/
theorem C9_exit_cancels_pending_wake_witness :
    (blockFinish none ⟨some 1, some 0⟩ ⟨[⟨0, 1, false⟩], 1⟩).1 = none ∧
    (blockFinish none ⟨some 1, some 0⟩ ⟨[⟨0, 1, false⟩], 1⟩).2.1 = SimpleEvent.init ∧
    fireTimer (blockFinish none ⟨some 1, some 0⟩ ⟨[⟨0, 1, false⟩], 1⟩).2.2 0 = none ∧
    evtEnter 2 (blockFinish none ⟨some 1, some 0⟩ ⟨[⟨0, 1, false⟩], 1⟩).2.1 =
      (none, ⟨some 2, none⟩) :=
  C9_exit_cancels_pending_wake ⟨some 1, some 0⟩ ⟨[⟨0, 1, false⟩], 1⟩ 1 2 0
    ⟨0, 1, false⟩ none rfl rfl rfl

/-- C10: `release` never verifies the caller's identity.  Any task -- holder
or not -- releasing a lock with positive count succeeds and decrements the
count, clearing the holder exactly at zero; the result is the same whoever
the caller is; and the lock-misuse error occurs exactly when the count is
zero, never on a holder mismatch. -/
theorem C10_release_ignores_caller (c c1 c2 c3 : TaskId) (st s2 s3 : QueueLock)
    (hc : 0 < st.count) :
    (releaseBy c st).1 = none ∧
    (releaseBy c st).2.1.count = st.count - 1 ∧
    (releaseBy c st).2.1.holder = (if st.count = 1 then none else st.holder) ∧
    releaseBy c1 s2 = releaseBy c2 s2 ∧
    ((releaseBy c3 s3).1.isSome ↔ s3.count = 0) := by
  refine ⟨?_, ?_, ?_, rfl, ?_⟩
  · simp only [releaseBy, release]
    rw [if_neg (Nat.pos_iff_ne_zero.mp hc)]
    by_cases h1 : st.count - 1 = 0 <;> simp [h1]
  · simp only [releaseBy, release]
    rw [if_neg (Nat.pos_iff_ne_zero.mp hc)]
    by_cases h1 : st.count - 1 = 0 <;> simp [h1]
  · simp only [releaseBy, release]
    rw [if_neg (Nat.pos_iff_ne_zero.mp hc)]
    have : (st.count = 1) = (st.count - 1 = 0) := by
      apply propext; omega
    by_cases h1 : st.count - 1 = 0 <;> simp [h1, this]
  · simp only [releaseBy, release]
    by_cases h0 : s3.count = 0
    · simp [h0]
    · by_cases h1 : s3.count - 1 = 0 <;> simp [h0, h1]

/-- Witness for C10: task 3, which is not the holder (task 7), releases the
lock; identity of the caller never matters; error exactly at count zero. -/
theorem C10_release_ignores_caller_witness :
    (releaseBy 3 ⟨[], 1, some 7⟩).1 = none ∧
    (releaseBy 3 ⟨[], 1, some 7⟩).2.1.count = 0 ∧
    (releaseBy 3 ⟨[], 1, some 7⟩).2.1.holder =
      (if (1 : Nat) = 1 then none else some 7) ∧
    releaseBy 1 ⟨[], 5, some 9⟩ = releaseBy 2 ⟨[], 5, some 9⟩ ∧
    ((releaseBy 4 ⟨[], 0, none⟩).1.isSome ↔ (0 : Nat) = 0) :=
  C10_release_ignores_caller 3 1 2 4 ⟨[], 1, some 7⟩ ⟨[], 5, some 9⟩ ⟨[], 0, none⟩
    (by decide)

/-- On a run of `K` EAGAIN outcomes starting at attempt `s`, followed by a
success, the retry loop suspends once per would-block and returns the
success. -/
theorem retryLoop_ok {α : Type} (v : α) :
    ∀ (K s : Nat) (stub : Nat → Attempt α),
      (∀ i, i < K → stub (s + i) = .zmqErr EAGAIN) → stub (s + K) = .ok v →
      retryLoop stub (K + 1) s = some (.ok v, K) := by
  intro K
  induction K with
  | zero =>
    intro s stub _ hs
    simp only [Nat.add_zero] at hs
    simp [retryLoop, hs]
  | succ K ih =>
    intro s stub hb hs
    have h0 : stub s = .zmqErr EAGAIN := by
      have := hb 0 (Nat.succ_pos K)
      simpa using this
    have hrec : retryLoop stub (K + 1) (s + 1) = some (.ok v, K) := by
      apply ih (s + 1) stub
      · intro i hi
        have := hb (i + 1) (by omega)
        have harith : s + (i + 1) = s + 1 + i := by omega
        rwa [harith] at this
      · have harith : s + (K + 1) = s + 1 + K := by omega
        rwa [harith] at hs
    rw [retryLoop, h0]
    simp [hrec]

/-- On a run of `j` EAGAIN outcomes followed by a non-EAGAIN error, the retry
loop re-raises that error at once, after exactly `j` suspensions. -/
theorem retryLoop_err {α : Type} (e : Nat) (hne : e ≠ EAGAIN) :
    ∀ (j s : Nat) (stub : Nat → Attempt α),
      (∀ i, i < j → stub (s + i) = .zmqErr EAGAIN) → stub (s + j) = .zmqErr e →
      retryLoop stub (j + 1) s = some (.error e, j) := by
  intro j
  induction j with
  | zero =>
    intro s stub _ hj
    simp only [Nat.add_zero] at hj
    simp [retryLoop, hj, hne]
  | succ j ih =>
    intro s stub hb hj
    have h0 : stub s = .zmqErr EAGAIN := by
      have := hb 0 (Nat.succ_pos j)
      simpa using this
    have hrec : retryLoop stub (j + 1) (s + 1) = some (.error e, j) := by
      apply ih (s + 1) stub
      · intro i hi
        have := hb (i + 1) (by omega)
        have harith : s + (i + 1) = s + 1 + i := by omega
        rwa [harith] at this
      · have harith : s + (j + 1) = s + 1 + j := by omega
        rwa [harith] at hj
    rw [retryLoop, h0]
    simp [hrec]

/-- C3: retry termination.  For a blocking send/receive whose external stub
returns would-block on exactly the first `K` attempts and then succeeds, the
retry loop suspends exactly `K` times (one `_trampoline` cycle per
would-block) and returns the success value on attempt `K + 1`; and for a stub
whose first non-would-block outcome is an error other than EAGAIN, that error
is propagated as soon as it occurs, with no further attempts. -/
theorem C3_retry_termination {α : Type} (K j e : Nat)
    (stub stubE : Nat → Attempt α) (v : α)
    (hb : ∀ i, i < K → stub i = .zmqErr EAGAIN) (hs : stub K = .ok v)
    (hbe : ∀ i, i < j → stubE i = .zmqErr EAGAIN) (hj : stubE j = .zmqErr e)
    (hne : e ≠ EAGAIN) :
    retryLoop stub (K + 1) 0 = some (.ok v, K) ∧
    retryLoop stubE (j + 1) 0 = some (.error e, j) := by
  constructor
  · apply retryLoop_ok v K 0 stub
    · intro i hi
      simpa using hb i hi
    · simpa using hs
  · apply retryLoop_err e hne j 0 stubE
    · intro i hi
      simpa using hbe i hi
    · simpa using hj

/-- Witness for C3: a stub that would-blocks twice then succeeds yields the
success after exactly two suspensions; a stub that would-blocks once then
raises ENOTSUP propagates it after exactly one suspension. -/
theorem C3_retry_termination_witness :
    retryLoop (fun i => if i < 2 then Attempt.zmqErr EAGAIN else .ok 7) 3 0 =
      some (.ok 7, 2) ∧
    retryLoop
      ((fun i => if i < 1 then Attempt.zmqErr EAGAIN else .zmqErr ENOTSUP) :
        Nat → Attempt Nat) 2 0 =
      some (.error ENOTSUP, 1) :=
  C3_retry_termination 2 1 ENOTSUP
    (fun i => if i < 2 then Attempt.zmqErr EAGAIN else .ok 7)
    (fun i => if i < 1 then Attempt.zmqErr EAGAIN else .zmqErr ENOTSUP) 7
    (by decide) (by decide) (by decide) (by decide) (by decide)

/-- Tasks arriving at a lock held by `t0` all queue, in arrival order. -/
theorem enqueueAll_blocked (t0 : TaskId) :
    ∀ (ts : List TaskId) (w : List TaskId) (c : Nat),
      (∀ t ∈ ts, t ≠ t0) →
      enqueueAll ts ⟨w, c + 1, some t0⟩ = ⟨w ++ ts, c + 1, some t0⟩ := by
  intro ts
  induction ts with
  | nil =>
    intro w c _
    simp [enqueueAll]
  | cons a ts ih =>
    intro w c hts
    have ha : t0 ≠ a := (hts a (List.mem_cons_self a ts)).symm
    have hstep : acquire a ⟨w, c + 1, some t0⟩ = .enqueued ⟨w ++ [a], c + 1, some t0⟩ := by
      simp [acquire, ha]
    have hfold : enqueueAll (a :: ts) ⟨w, c + 1, some t0⟩ =
        enqueueAll ts (stateOf (acquire a ⟨w, c + 1, some t0⟩)) := rfl
    rw [hfold, hstep]
    show enqueueAll ts ⟨w ++ [a], c + 1, some t0⟩ = _
    rw [ih (w ++ [a]) c (fun t ht => hts t (List.mem_cons_of_mem a ht))]
    simp [List.append_assoc]

/-- Draining a contended lock: starting from a sole holder with queue `q`,
the release/schedule/resume cycle makes the queued tasks sole holder exactly
in queue order. -/
theorem runHandoffs_drain :
    ∀ (q : List TaskId) (t : TaskId),
      runHandoffs q.length ⟨q, 1, some t⟩ = .ok q := by
  intro q
  induction q with
  | nil => intro t; rfl
  | cons a q ih =>
    intro t
    have hrel : release ⟨a :: q, 1, some t⟩ = (none, ⟨a :: q, 0, none⟩, some a) := by
      simp [release]
    have hres : acquireResume a ⟨a :: q, 0, none⟩ = .ok ⟨q, 1, some a⟩ := by
      simp [acquireResume]
    rw [runHandoffs, hrel]
    simp only [List.length_cons, hres]
    rw [ih a]
    rfl

/-- C4: the lock is strictly FIFO.  Tasks `ts` that call `acquire`, in order,
on a lock held by `t0` queue in exactly that order; the drain then makes them
sole holder (completing their critical sections) in exactly that order; and a
task arriving at a lock whose wait queue is non-empty never takes the lock --
it is appended at the back of the queue (no barging). -/
theorem C4_fifo (ts : List TaskId) (t0 : TaskId) (hts : ∀ t ∈ ts, t ≠ t0)
    (t : TaskId) (stB : QueueLock) (hq : stB.waiters ≠ []) (hh : stB.holder ≠ some t) :
    (enqueueAll ts ⟨[], 1, some t0⟩).waiters = ts ∧
    runHandoffs ts.length (enqueueAll ts ⟨[], 1, some t0⟩) = .ok ts ∧
    acquire t stB = .enqueued { stB with waiters := stB.waiters ++ [t] } := by
  have henq : enqueueAll ts ⟨[], 1, some t0⟩ = ⟨ts, 1, some t0⟩ := by
    have := enqueueAll_blocked t0 ts [] 0 hts
    simpa using this
  refine ⟨by rw [henq], ?_, ?_⟩
  · rw [henq]
    exact runHandoffs_drain ts t0
  · have hcond : (stB.waiters ≠ [] ∨ 0 < stB.count) ∧ stB.holder ≠ some t :=
      ⟨Or.inl hq, hh⟩
    unfold acquire
    rw [if_pos hcond]

/-- Witness for C4: tasks 1, 2, 3 queue behind holder 0 and complete in order
1, 2, 3; task 9 arriving at a lock with waiter 5 queues behind it. -/
theorem C4_fifo_witness :
    (enqueueAll [1, 2, 3] ⟨[], 1, some 0⟩).waiters = [1, 2, 3] ∧
    runHandoffs 3 (enqueueAll [1, 2, 3] ⟨[], 1, some 0⟩) = .ok [1, 2, 3] ∧
    acquire 9 ⟨[5], 1, some 4⟩ = .enqueued ⟨[5, 9], 1, some 4⟩ :=
  C4_fifo [1, 2, 3] 0 (by decide) 9 ⟨[5], 1, some 4⟩ (by decide) (by decide)

/-- C5 counterexample: the in-trampoline flag is not per direction.  Concrete
input: a receive task (task 1) is inside the external readiness wait (it set
the socket's single `_in_trampoline` flag and is recorded on the receive
gate); the send gate is empty, so no task is waiting for the send direction.
The claim's per-direction flag says a send task finding no send-direction
waiter sets the send flag and performs the external wait; the code instead
parks task 2 on the send gate, because the one shared flag is set. -/
theorem C5_per_direction_flag_fails :
    (⟨true, SimpleEvent.init, ⟨some 1, none⟩⟩ : SocketState).sendEvent.blockedThread
      = none ∧
    (trampolineStep true 2 none ⟨true, SimpleEvent.init, ⟨some 1, none⟩⟩ Hub.init).2.1 =
      .blockedOnGate .send ∧
    (trampolineStep true 2 none ⟨true, SimpleEvent.init, ⟨some 1, none⟩⟩ Hub.init).2.1 ≠
      .externalWait := by decide

/-- C5 (amended): the in-trampoline flag is one per-socket flag shared by both
directions.  A task that needs to wait for direction D while the flag is set
(some task, of either direction, is inside the external wait) parks on D's
wake gate and never enters the external wait itself; a task that finds the
flag clear performs the external wait; the flag comes back equal to its
pre-call value on every exit path -- in particular the external waiter clears
it even when the wait ends in an error (`werr` ranges over both) -- and the
direction's gate is clear after the call.  Hence at most one task per socket,
a fortiori per direction, is ever inside the external wait. -/
theorem C5_trampoline_dedup (st : SocketState) (c : TaskId) (werr : Option PyErr)
    (h : Hub) (isSend : Bool)
    (hfree : (gateOf st isSend).blockedThread = none) :
    (trampolineStep isSend c werr st h).2.1 =
      (if st.inTrampoline then TrampAction.blockedOnGate (dirOf isSend)
       else TrampAction.externalWait) ∧
    (trampolineStep isSend c werr st h).2.2.1.inTrampoline = st.inTrampoline ∧
    gateOf (trampolineStep isSend c werr st h).2.2.1 isSend = SimpleEvent.init := by
  cases isSend <;> cases hst : st.inTrampoline <;>
    simp_all [trampolineStep, evtEnter, blockFinish, evtExit, gateOf, setGate, dirOf,
      SimpleEvent.init]

/-- Witness for C5 (amended): on a fresh socket (flag clear, gates empty) a
send task performs the external wait and the flag and gate are clear after
the call. -/
theorem C5_trampoline_dedup_witness :
    (trampolineStep true 3 none ⟨false, SimpleEvent.init, SimpleEvent.init⟩ Hub.init).2.1 =
      TrampAction.externalWait ∧
    (trampolineStep true 3 none ⟨false, SimpleEvent.init, SimpleEvent.init⟩
      Hub.init).2.2.1.inTrampoline = false ∧
    gateOf (trampolineStep true 3 none ⟨false, SimpleEvent.init, SimpleEvent.init⟩
      Hub.init).2.2.1 true = SimpleEvent.init :=
  C5_trampoline_dedup ⟨false, SimpleEvent.init, SimpleEvent.init⟩ 3 none Hub.init true rfl

/-- Repeated reentrant `acquire` by the holder only increments the count. -/
theorem acquireN_held (t : TaskId) :
    ∀ (n : Nat) (w : List TaskId) (c : Nat),
      acquireN n t ⟨w, c, some t⟩ = ⟨w, c + n, some t⟩ := by
  intro n
  induction n with
  | zero => intro w c; rfl
  | succ n ih =>
    intro w c
    have hstep : acquire t ⟨w, c, some t⟩ = .acquired ⟨w, c + 1, some t⟩ := by
      simp [acquire]
    simp only [acquireN, hstep, stateOf]
    rw [ih w (c + 1)]
    have : c + 1 + n = c + (n + 1) := by omega
    rw [this]

/-- Releasing `n` of `c + n` nested holds never errors and never frees the
lock while the count stays positive. -/
theorem releaseN_held (t : TaskId) :
    ∀ (n : Nat) (w : List TaskId) (c : Nat), 0 < c →
      releaseN n ⟨w, c + n, some t⟩ = (none, ⟨w, c, some t⟩) := by
  intro n
  induction n with
  | zero => intro w c _; rfl
  | succ n ih =>
    intro w c hc
    have h1 : c + (n + 1) ≠ 0 := by omega
    have h2 : c + (n + 1) - 1 = c + n := by omega
    have h3 : ¬(c + n = 0) := by omega
    have hrel : release ⟨w, c + (n + 1), some t⟩ = (none, ⟨w, c + n, some t⟩, none) := by
      simp [release, h1, h2, h3]
    simp only [releaseN, hrel]
    exact ih w c hc

/-- C6: full reentrancy keyed on task identity.  The holder re-acquires
immediately (the `acquired` outcome: no enqueue, no suspension) with the
count incremented; `n` nested acquires followed by `n` releases restore the
state exactly, with no error; and `release` clears the holder -- frees the
lock -- exactly when the count returns to zero. -/
theorem C6_reentrancy (t : TaskId) (w : List TaskId) (c n : Nat) (hc : 0 < c) :
    acquire t ⟨w, c, some t⟩ = .acquired ⟨w, c + 1, some t⟩ ∧
    releaseN n (acquireN n t ⟨w, c, some t⟩) = (none, ⟨w, c, some t⟩) ∧
    (release ⟨w, c, some t⟩).2.1.holder = (if c = 1 then none else some t) := by
  refine ⟨by simp [acquire], ?_, ?_⟩
  · rw [acquireN_held t n w c]
    exact releaseN_held t n w c hc
  · have h1 : ¬(c = 0) := by omega
    by_cases hc1 : c = 1
    · simp [release, h1, hc1]
    · have h2 : ¬(c - 1 = 0) := by omega
      simp [release, h1, h2, hc1]

/-- Witness for C6: holder 1 with count 2 re-acquires at once; three nested
acquire/release pairs restore the state; count 2 means release keeps the
holder. -/
theorem C6_reentrancy_witness :
    acquire 1 ⟨[], 2, some 1⟩ = .acquired ⟨[], 3, some 1⟩ ∧
    releaseN 3 (acquireN 3 1 ⟨[], 2, some 1⟩) = (none, ⟨[], 2, some 1⟩) ∧
    (release ⟨[], 2, some 1⟩).2.1.holder = (if (2 : Nat) = 1 then none else some 1) :=
  C6_reentrancy 1 [] 2 3 (by decide)

end GreenZmq
